import Mathlib

/-!
# Verification of the bit identity model and the Clifford collection policy

Shallow embedding of `qiskit/circuit/bit.py`,
`qiskit/transpiler/passes/optimization/collect_cliffords.py` and
`qiskit/circuit/library/templates/nct/template_nct_5a_4.py`, with the
properties of the specification proved over it.

Python machine-level conventions are embedded explicitly: object identity
is represented by a natural-number object id (distinct live objects have
distinct ids), exceptions by an error sum type, and attribute lookup that
may fail by `Option`.
-/

namespace QiskitBit

/-- Python exceptions relevant to `bit.py`: `CircuitError` (raised by
`Bit.__init__` with a message) and `AttributeError` (raised by attribute
access on an object lacking the attribute, e.g. `None.size`). -/
inductive PyErr where
  | circuitError : String → PyErr
  | attributeError : PyErr
  deriving DecidableEq, Repr

/-- Modelled from the spec: the owning register is an external collaborator
(`qiskit/circuit/register.py` is not under src/).  Per the spec it carries a
size and a display form (`str(register)`), and register display identity —
not object identity — governs registered-bit equality and hash consistency,
so its hash is derived from its display form.  `objId` is the Python object
identity of the register instance. -/
structure Register where
  objId : Nat
  size : Nat
  display : String
  deriving DecidableEq, Repr

/-- A deterministic string hash standing in for the host runtime's string
hashing; only its functionality (equal inputs give equal outputs) is used. -/
def strHash (s : String) : Int :=
  s.foldl (fun h c => h * 31 + (c.toNat : Int)) 7

/-- Hash of a register: derived from its display form (see `Register`). -/
def regHash (r : Register) : Int :=
  strHash r.display

/-- Model of Python's tuple hash `hash((a, b))` for the pair
`(register hash, index)`; a deterministic mixing function. -/
def pairHash (a : Int) (b : Int) : Int :=
  a * 1000003 + b

/-- Model of `object.__hash__`: a function of the object identity. -/
def objectHash (objId : Nat) : Int :=
  (objId : Int)

/-- The dynamic values an `index` argument can take in the embedding:
an `int`, a `float` (represented by its truncation toward zero, which is
exactly what `int()` returns on it), a `str`, or `None` (the default). -/
inductive PyVal where
  | vInt : Int → PyVal
  | vFloat : Int → PyVal
  | vStr : String → PyVal
  deriving DecidableEq, Repr

/-- The numeric value of a decimal digit character, `none` otherwise. -/
def digitVal? (c : Char) : Option Nat :=
  if 48 ≤ c.toNat && c.toNat ≤ 57 then some (c.toNat - 48) else none

/-- Parse a non-empty run of decimal digits into a natural number
(accumulator style); `none` on any non-digit. -/
def digitsToNat? : List Char → Nat → Option Nat
  | [], acc => some acc
  | c :: cs, acc =>
      match digitVal? c with
      | some d => digitsToNat? cs (acc * 10 + d)
      | none => none

/-- Model of the Python builtin `int()` on a string: an optional sign
followed by at least one decimal digit; anything else raises. -/
def strToInt? (s : String) : Option Int :=
  match s.data with
  | [] => none
  | '-' :: cs =>
      if cs.isEmpty then none
      else (digitsToNat? cs 0).map (fun n => -(n : Int))
  | '+' :: cs =>
      if cs.isEmpty then none
      else (digitsToNat? cs 0).map (fun n => (n : Int))
  | cs => (digitsToNat? cs 0).map (fun n => (n : Int))

/-- Model of the Python builtin `int(x)` on the value domain of `PyVal`:
`none` when the cast raises (non-numeric string). -/
def pyIntCast : PyVal → Option Int
  | .vInt n => some n
  | .vFloat n => some n
  | .vStr s => strToInt? s

/-- Model of `int(index)` where `index` may be `None` (`int(None)` raises). -/
def pyIntCastOpt : Option PyVal → Option Int
  | none => none
  | some v => pyIntCast v

/-- The state of a constructed `Bit`: its concrete kind name
(`self.__class__.__name__`, e.g. `"Qubit"`), its object identity, and the
slots `_register`, `_index`, `_hash`, `_repr`.  The `_repr` slot is only
assigned on the registered path, hence `Option`: reading it on an
unregistered bit raises `AttributeError`. -/
structure BitObj where
  kind : String
  objId : Nat
  register : Option Register
  index : Option Int
  hash : Int
  repr : Option String
  deriving DecidableEq, Repr

/-- The display string
`f"{self.__class__.__name__}({self._register}, {self._index})"`. -/
def bitReprStr (kind : String) (r : Register) (index : Int) : String :=
  kind ++ "(" ++ r.display ++ ", " ++ toString index ++ ")"

/-- Embedding of `Bit.__init__`.

```
if (register, index) == (None, None): unregistered bit, object hash
else:
    try: index = int(index)
    except Exception: raise CircuitError("index needs to be castable to an int: ...")
    if index < 0: index += register.size
    if index >= register.size:
        raise CircuitError("index must be under the size of the register: ...")
    registered bit with hash((register, index)) and the display string
```

`register.size` on `register = None` raises `AttributeError`.  `objId` is
the identity of the freshly allocated instance. -/
def bitInit (kind : String) (objId : Nat) (register : Option Register)
    (index : Option PyVal) : Except PyErr BitObj :=
  match register, index with
  | none, none =>
      .ok { kind := kind, objId := objId, register := none, index := none,
            hash := objectHash objId, repr := none }
  | register, index =>
      match pyIntCastOpt index with
      | none => .error (.circuitError "index needs to be castable to an int")
      | some i =>
          match register with
          | none => .error .attributeError
          | some r =>
              let i := if i < 0 then i + (r.size : Int) else i
              if i ≥ (r.size : Int) then
                .error (.circuitError "index must be under the size of the register")
              else
                .ok { kind := kind, objId := objId, register := some r,
                      index := some i,
                      hash := pairHash (regHash r) i,
                      repr := some (bitReprStr kind r i) }

/-- An arbitrary Python object on the right of `bit == other`: either a
`Bit` instance, or a non-`Bit` object with an object id and possibly a
`_repr` attribute. -/
inductive PyAny where
  | bit : BitObj → PyAny
  | nonBit : Nat → Option String → PyAny
  deriving DecidableEq, Repr

/-- Model of `getattr(other, "_repr")`: the `_repr` attribute of an
arbitrary object, `none` when access would raise `AttributeError` (every
unregistered bit and every non-`Bit` value without such an attribute). -/
def getReprAttr : PyAny → Option String
  | .bit b => b.repr
  | .nonBit _ r => r

/-- Model of `other is self`: Python object identity.  A non-`Bit` object is never
the same instance as `self`. -/
def isSame (self : BitObj) : PyAny → Bool
  | .bit b => self.objId == b.objId
  | .nonBit _ _ => false

/-- Embedding of `Bit.__eq__`:

```
if (self._register, self._index) == (None, None): return other is self
try: return self._repr == other._repr
except AttributeError: return False
```

The `try`/`except` is the `Option` match: when either `_repr` lookup
raises, the result is `False`. -/
def bitEq (self : BitObj) (other : PyAny) : Bool :=
  if self.register.isNone && self.index.isNone then
    isSame self other
  else
    match self.repr, getReprAttr other with
    | some rs, some ro => rs == ro
    | _, _ => false

/-- Embedding of `Bit.__copy__`: bits are immutable, the same instance is
returned. -/
def bitCopy (self : BitObj) : BitObj :=
  self

/-- Model of `copy.deepcopy(register, memo)`: a structurally equal register with a
fresh object identity. -/
def deepcopyRegister (freshRegId : Nat) (r : Register) : Register :=
  { r with objId := freshRegId }

/-- Embedding of `Bit.__deepcopy__`: an unregistered bit returns itself; a
registered bit allocates a new instance (`type(self).__new__`) whose
register is deep-copied and whose `_index`, `_hash` and `_repr` slots are
the originally computed values, unchanged. -/
def bitDeepcopy (freshBitId freshRegId : Nat) (self : BitObj) : BitObj :=
  if self.register.isNone && self.index.isNone then
    self
  else
    { kind := self.kind, objId := freshBitId,
      register := self.register.map (deepcopyRegister freshRegId),
      index := self.index, hash := self.hash, repr := self.repr }

end QiskitBit

namespace QiskitClifford

/-- An operation held by a DAG node: its name and its classical condition
attribute (`getattr(node.op, "condition", None)`); `none` models both an
absent attribute and an attribute set to `None`. -/
structure Instr where
  name : String
  condition : Option String
  deriving DecidableEq, Repr

/-- A DAG operation node: one operation plus its ordered qubit arguments
(qubits identified by their index in the circuit). -/
structure DAGNode where
  op : Instr
  qargs : List Nat
  deriving DecidableEq, Repr

/-- Modelled from the spec: the key list of `_BASIS_1Q` — the single-qubit
Clifford generator names of the external operator-algebra collaborator
(`qiskit/quantum_info/operators/symplectic/clifford_circuits.py`, not under
src/). -/
def basis1qNames : List String :=
  ["i", "id", "iden", "x", "y", "z", "h", "s", "sdg", "sinv", "sx", "sxdg", "v", "w"]

/-- Modelled from the spec: the key list of `_BASIS_2Q` — the two-qubit
Clifford generator names of the same external collaborator. -/
def basis2qNames : List String :=
  ["cx", "cz", "cy", "swap", "iswap", "ecr", "dcx"]

/-- Embedding of `clifford_gate_names`:
`list(_BASIS_1Q.keys()) + list(_BASIS_2Q.keys())
 + ["clifford", "linear_function", "pauli", "permutation"]`. -/
def clifford_gate_names : List String :=
  basis1qNames ++ basis2qNames ++ ["clifford", "linear_function", "pauli", "permutation"]

/-- Embedding of `_is_clifford_gate`:
`node.op.name in clifford_gate_names and getattr(node.op, "condition", None) is None`. -/
def is_clifford_gate (node : DAGNode) : Bool :=
  clifford_gate_names.contains node.op.name && node.op.condition == none

/-- A quantum circuit: a number of qubits and the ordered instruction
list. -/
structure QuantumCircuit where
  num_qubits : Nat
  data : List DAGNode
  deriving DecidableEq, Repr

/-- Embedding of `qc.cx(c, t)`: append a CX gate (no classical condition). -/
def QuantumCircuit.cx (qc : QuantumCircuit) (c t : Nat) : QuantumCircuit :=
  { qc with data := qc.data ++ [{ op := { name := "cx", condition := none }, qargs := [c, t] }] }

/-- Embedding of `qc.x(q)`: append an X gate (no classical condition). -/
def QuantumCircuit.x (qc : QuantumCircuit) (q : Nat) : QuantumCircuit :=
  { qc with data := qc.data ++ [{ op := { name := "x", condition := none }, qargs := [q] }] }

/-- Embedding of `qc.cz(c, t)`: append a CZ gate (no classical condition). -/
def QuantumCircuit.cz (qc : QuantumCircuit) (c t : Nat) : QuantumCircuit :=
  { qc with data := qc.data ++ [{ op := { name := "cz", condition := none }, qargs := [c, t] }] }

/-- Embedding of `template_nct_5a_4`: a 2-qubit circuit with the gates
CX(0,1), X(0), CX(0,1), X(0), X(1) appended in order. -/
def template_nct_5a_4 : QuantumCircuit :=
  ((((({ num_qubits := 2, data := [] } : QuantumCircuit).cx 0 1).x 0).cx 0 1).x 0).x 1

/-- Embedding of `clifford_2_1`: a 2-qubit circuit with two CZ(0,1)
gates. -/
def clifford_2_1 : QuantumCircuit :=
  (({ num_qubits := 2, data := [] } : QuantumCircuit).cz 0 1).cz 0 1

/-- Do two nodes share at least one qubit operand? -/
def sharesQubit (a b : DAGNode) : Bool :=
  a.qargs.any (fun q => b.qargs.contains q)

/-- Modelled from the spec (§4.2, `split_blocks`): fold a node into a list
of operand-connected components, merging every component that shares a
qubit with the node. -/
def addToComponents (comps : List (List DAGNode)) (n : DAGNode) : List (List DAGNode) :=
  let touching := comps.filter (fun c => c.any (fun m => sharesQubit m n))
  let rest := comps.filter (fun c => ¬ c.any (fun m => sharesQubit m n))
  rest ++ [touching.flatten ++ [n]]

/-- Modelled from the spec: partition a run of nodes into connected
components of the operand-overlap graph (two nodes in the same component
iff they share at least one operand, transitively). -/
def connectedComponents (nodes : List DAGNode) : List (List DAGNode) :=
  nodes.foldl addToComponents []

/-- Modelled from the spec (§4.2, forward case, `commutative_analysis`
disabled): collect maximal runs of consecutive matching nodes; `cur` is
the open candidate block. -/
def collectRuns (filt : DAGNode → Bool) : List DAGNode → List DAGNode → List (List DAGNode)
  | [], cur => if cur.isEmpty then [] else [cur]
  | n :: rest, cur =>
      if filt n then collectRuns filt rest (cur ++ [n])
      else (if cur.isEmpty then [] else [cur]) ++ collectRuns filt rest []

/-- Modelled from the spec (§4.2, `split_layers`): greedily partition a
component into layers of mutually operand-disjoint nodes. -/
def addToLayers (layers : List (List DAGNode)) (n : DAGNode) : List (List DAGNode) :=
  match layers with
  | [] => [[n]]
  | l :: ls =>
      if l.any (fun m => sharesQubit m n) then [n] :: l :: ls
      else (l ++ [n]) :: ls

/-- Layer split of one component (layers in program order). -/
def splitIntoLayers (nodes : List DAGNode) : List (List DAGNode) :=
  (nodes.foldl addToLayers []).reverse

/-- Modelled from the spec: `collect_using_filter_function`
(`collect_and_collapse.py` is not under src/).  With
`commutative_analysis` disabled: traverse in the configured direction,
collect maximal runs of consecutive matching nodes, optionally split each
run into operand-connected components and then into layers, and discard
every block smaller than `min_block_size`. -/
def collect_using_filter_function (filt : DAGNode → Bool) (split_blocks : Bool)
    (min_block_size : Nat) (split_layers : Bool) (collect_from_back : Bool)
    (nodes : List DAGNode) : List (List DAGNode) :=
  let ordered := if collect_from_back then nodes.reverse else nodes
  let runs := collectRuns filt ordered []
  let runs := if collect_from_back then (runs.map List.reverse).reverse else runs
  let blocks := if split_blocks then (runs.map connectedComponents).flatten else runs
  let blocks := if split_layers then (blocks.map splitIntoLayers).flatten else blocks
  blocks.filter (fun b => min_block_size ≤ b.length)

/-- The arguments `CollectCliffords.__init__` forwards to the collection
function through `functools.partial`. -/
structure CollectFunctionArgs where
  split_blocks : Bool
  min_block_size : Nat
  split_layers : Bool
  collect_from_back : Bool
  deriving DecidableEq, Repr

/-- The configuration handed to the `CollectAndCollapse` superclass: the
partially-applied collection arguments plus `do_commutative_analysis`. -/
structure CollectAndCollapseCfg where
  collect_args : CollectFunctionArgs
  do_commutative_analysis : Bool
  deriving DecidableEq, Repr

/-- Embedding of `CollectCliffords.__init__` with explicit arguments: it
builds `partial(collect_using_filter_function, filter_function=_is_clifford_gate,
split_blocks=..., min_block_size=..., split_layers=..., collect_from_back=...)`
and passes `do_commutative_analysis` to the superclass. -/
def CollectCliffords.init (do_commutative_analysis split_blocks : Bool)
    (min_block_size : Nat) (split_layers collect_from_back : Bool) :
    CollectAndCollapseCfg :=
  { collect_args :=
      { split_blocks := split_blocks, min_block_size := min_block_size,
        split_layers := split_layers, collect_from_back := collect_from_back },
    do_commutative_analysis := do_commutative_analysis }

/-- Embedding of `CollectCliffords()` with no arguments: every keyword takes its
declared default (`do_commutative_analysis=False`, `split_blocks=True`,
`min_block_size=2`, `split_layers=False`, `collect_from_back=False`). -/
def CollectCliffords.initDefault : CollectAndCollapseCfg :=
  CollectCliffords.init false true 2 false false

/-- Running the configured collection function of a `CollectCliffords`
pass on a node list. -/
def CollectAndCollapseCfg.collect (cfg : CollectAndCollapseCfg)
    (nodes : List DAGNode) : List (List DAGNode) :=
  collect_using_filter_function is_clifford_gate cfg.collect_args.split_blocks
    cfg.collect_args.min_block_size cfg.collect_args.split_layers
    cfg.collect_args.collect_from_back nodes

end QiskitClifford

namespace QiskitBit

/-- Helper: what `bitInit` produces on the successful registered path. -/
theorem bitInit_registered_ok (k : String) (oid : Nat) (r : Register) (v : PyVal)
    (i : Int) (hc : pyIntCast v = some i)
    (hlt : (if i < 0 then i + (r.size : Int) else i) < (r.size : Int)) :
    bitInit k oid (some r) (some v) =
      .ok { kind := k, objId := oid, register := some r,
            index := some (if i < 0 then i + (r.size : Int) else i),
            hash := pairHash (regHash r) (if i < 0 then i + (r.size : Int) else i),
            repr := some (bitReprStr k r (if i < 0 then i + (r.size : Int) else i)) } := by
  simp only [bitInit, pyIntCastOpt, hc]
  rw [if_neg (by omega)]

/-- Helper: inversion of a successful registered construction. -/
theorem bitInit_registered_inv (k : String) (oid : Nat) (r : Register) (v : PyVal)
    (b : BitObj) (h : bitInit k oid (some r) (some v) = .ok b) :
    ∃ i : Int, pyIntCast v = some i ∧
      (if i < 0 then i + (r.size : Int) else i) < (r.size : Int) ∧
      b = { kind := k, objId := oid, register := some r,
            index := some (if i < 0 then i + (r.size : Int) else i),
            hash := pairHash (regHash r) (if i < 0 then i + (r.size : Int) else i),
            repr := some (bitReprStr k r (if i < 0 then i + (r.size : Int) else i)) } := by
  cases hc : pyIntCast v with
  | none => simp [bitInit, pyIntCastOpt, hc] at h
  | some i =>
      simp only [bitInit, pyIntCastOpt, hc] at h
      by_cases hge : (if i < 0 then i + (r.size : Int) else i) ≥ (r.size : Int)
      · rw [if_pos hge] at h
        cases h
      · rw [if_neg hge] at h
        cases h
        exact ⟨i, rfl, by omega, rfl⟩

end QiskitBit

namespace QiskitBit

/-- C1: for registered bits of the same kind whose owning registers have the
same display form and whose normalized offsets are equal, `b1 == b2` and
`hash(b1) == hash(b2)`, even when the two bits are distinct instances with
distinct register objects: equality is structural on the display string and
the hash is consistent with it. -/
theorem registered_bit_structural_eq_and_hash
    (k : String) (id1 id2 : Nat) (r1 r2 : Register) (v1 v2 : PyVal)
    (b1 b2 : BitObj)
    (h1 : bitInit k id1 (some r1) (some v1) = .ok b1)
    (h2 : bitInit k id2 (some r2) (some v2) = .ok b2)
    (hdisp : r1.display = r2.display)
    (hoff : b1.index = b2.index) :
    bitEq b1 (.bit b2) = true ∧ b1.hash = b2.hash := by
  obtain ⟨i1, hc1, hlt1, hb1⟩ := bitInit_registered_inv _ _ _ _ _ h1
  obtain ⟨i2, hc2, hlt2, hb2⟩ := bitInit_registered_inv _ _ _ _ _ h2
  subst hb1; subst hb2
  simp only [Option.some.injEq] at hoff
  simp [bitEq, getReprAttr, bitReprStr, regHash, pairHash, hdisp, hoff]

/-- Witness for C1: two concrete bits built from distinct register objects
(object ids 10 and 11) with the same display form, one from offset `0` and
one from offset `-1` on a register of size 1, compare equal with equal
hashes. -/
theorem registered_bit_structural_eq_and_hash_witness :
    bitEq
      { kind := "Qubit", objId := 1, register := some ⟨10, 1, "q"⟩,
        index := some 0, hash := pairHash (regHash ⟨10, 1, "q"⟩) 0,
        repr := some (bitReprStr "Qubit" ⟨10, 1, "q"⟩ 0) }
      (.bit { kind := "Qubit", objId := 2, register := some ⟨11, 1, "q"⟩,
              index := some 0, hash := pairHash (regHash ⟨11, 1, "q"⟩) 0,
              repr := some (bitReprStr "Qubit" ⟨11, 1, "q"⟩ 0) }) = true ∧
    ({ kind := "Qubit", objId := 1, register := some ⟨10, 1, "q"⟩,
       index := some 0, hash := pairHash (regHash ⟨10, 1, "q"⟩) 0,
       repr := some (bitReprStr "Qubit" ⟨10, 1, "q"⟩ 0) } : BitObj).hash =
    ({ kind := "Qubit", objId := 2, register := some ⟨11, 1, "q"⟩,
       index := some 0, hash := pairHash (regHash ⟨11, 1, "q"⟩) 0,
       repr := some (bitReprStr "Qubit" ⟨11, 1, "q"⟩ 0) } : BitObj).hash :=
  registered_bit_structural_eq_and_hash "Qubit" 1 2 ⟨10, 1, "q"⟩ ⟨11, 1, "q"⟩
    (.vInt 0) (.vInt (-1)) _ _ (by rfl) (by rfl) rfl rfl

end QiskitBit

namespace QiskitBit

/-- C2: when the offset is negative and still negative after adding the
register size, construction does not fail — no lower-bound check follows the
normalization — and the bit is created with the negative stored offset
`o + n`. -/
theorem negative_after_normalization_accepted
    (k : String) (oid : Nat) (r : Register) (o : Int)
    (hneg : o < 0) (hstill : o + (r.size : Int) < 0) :
    bitInit k oid (some r) (some (.vInt o)) =
      .ok { kind := k, objId := oid, register := some r,
            index := some (o + (r.size : Int)),
            hash := pairHash (regHash r) (o + (r.size : Int)),
            repr := some (bitReprStr k r (o + (r.size : Int))) } := by
  have e : (if o < 0 then o + (r.size : Int) else o) = o + (r.size : Int) :=
    if_pos hneg
  have h := bitInit_registered_ok k oid r (.vInt o) o rfl (by rw [e]; omega)
  rw [e] at h
  exact h

/-- Witness for C2: offset `-5` on a register of size 2 normalizes to `-3`,
which is still negative, and construction succeeds with that stored
offset. -/
theorem negative_after_normalization_accepted_witness :
    (-5 : Int) < 0 ∧ (-5 : Int) + ((2 : Nat) : Int) < 0 ∧
    bitInit "Qubit" 1 (some ⟨7, 2, "q"⟩) (some (.vInt (-5))) =
      .ok { kind := "Qubit", objId := 1, register := some ⟨7, 2, "q"⟩,
            index := some ((-5 : Int) + ((2 : Nat) : Int)),
            hash := pairHash (regHash ⟨7, 2, "q"⟩) ((-5 : Int) + ((2 : Nat) : Int)),
            repr := some (bitReprStr "Qubit" ⟨7, 2, "q"⟩ ((-5 : Int) + ((2 : Nat) : Int))) } :=
  ⟨by norm_num, by norm_num,
   negative_after_normalization_accepted "Qubit" 1 ⟨7, 2, "q"⟩ (-5)
     (by norm_num) (by norm_num)⟩

/-- C3: offset `-1` on a register of size `n` is normalized to `n - 1` and
construction succeeds; any offset whose normalized value is at least `n`
fails with the out-of-range `CircuitError` and produces no bit. -/
theorem offset_minus_one_and_out_of_range
    (k : String) (oid : Nat) (r : Register) :
    (bitInit k oid (some r) (some (.vInt (-1))) =
      .ok { kind := k, objId := oid, register := some r,
            index := some ((r.size : Int) - 1),
            hash := pairHash (regHash r) ((r.size : Int) - 1),
            repr := some (bitReprStr k r ((r.size : Int) - 1)) }) ∧
    (∀ o : Int, (if o < 0 then o + (r.size : Int) else o) ≥ (r.size : Int) →
      bitInit k oid (some r) (some (.vInt o)) =
        .error (.circuitError "index must be under the size of the register")) := by
  constructor
  · have e : (if (-1 : Int) < 0 then -1 + (r.size : Int) else -1) = (r.size : Int) - 1 := by
      rw [if_pos (by norm_num)]; omega
    have h := bitInit_registered_ok k oid r (.vInt (-1)) (-1) rfl (by rw [e]; omega)
    rw [e] at h
    exact h
  · intro o hge
    simp only [bitInit, pyIntCastOpt, pyIntCast]
    rw [if_pos hge]

/-- Witness for C3: on a register of size 3, offset `-1` yields a bit at
normalized offset 2, while offset 5 (normalized value 5 ≥ 3) is rejected
with the out-of-range error. -/
theorem offset_minus_one_and_out_of_range_witness :
    (bitInit "Qubit" 1 (some ⟨7, 3, "q"⟩) (some (.vInt (-1))) =
      .ok { kind := "Qubit", objId := 1, register := some ⟨7, 3, "q"⟩,
            index := some (((3 : Nat) : Int) - 1),
            hash := pairHash (regHash ⟨7, 3, "q"⟩) (((3 : Nat) : Int) - 1),
            repr := some (bitReprStr "Qubit" ⟨7, 3, "q"⟩ (((3 : Nat) : Int) - 1)) }) ∧
    (bitInit "Qubit" 1 (some ⟨7, 3, "q"⟩) (some (.vInt 5)) =
      .error (.circuitError "index must be under the size of the register")) :=
  ⟨(offset_minus_one_and_out_of_range "Qubit" 1 ⟨7, 3, "q"⟩).1,
   (offset_minus_one_and_out_of_range "Qubit" 1 ⟨7, 3, "q"⟩).2 5 (by norm_num)⟩

end QiskitBit

namespace QiskitBit

/-- C4: equality of unregistered bits is strict object identity — every
unregistered bit equals itself, and two distinct unregistered instances
(distinct object identities) are unequal regardless of their other
fields. -/
theorem unregistered_eq_is_identity
    (k1 k2 : String) (id1 id2 : Nat) (u1 u2 : BitObj)
    (h1 : bitInit k1 id1 none none = .ok u1)
    (h2 : bitInit k2 id2 none none = .ok u2)
    (hne : id1 ≠ id2) :
    bitEq u1 (.bit u1) = true ∧ bitEq u1 (.bit u2) = false := by
  simp only [bitInit, Except.ok.injEq] at h1 h2
  subst h1; subst h2
  constructor
  · simp [bitEq, isSame]
  · simp [bitEq, isSame, hne]

/-- Witness for C4: two concrete unregistered bits of the same kind with
object ids 1 and 2 — the first equals itself and differs from the
second. -/
theorem unregistered_eq_is_identity_witness :
    bitEq { kind := "Qubit", objId := 1, register := none, index := none,
            hash := objectHash 1, repr := none }
      (.bit { kind := "Qubit", objId := 1, register := none, index := none,
              hash := objectHash 1, repr := none }) = true ∧
    bitEq { kind := "Qubit", objId := 1, register := none, index := none,
            hash := objectHash 1, repr := none }
      (.bit { kind := "Qubit", objId := 2, register := none, index := none,
              hash := objectHash 2, repr := none }) = false :=
  unregistered_eq_is_identity "Qubit" "Qubit" 1 2 _ _ rfl rfl (by decide)

/-- C5: shallow duplication returns the same instance; deep duplication of
a registered bit is a new instance whose register is a deep copy (same size
and display, fresh identity) and whose offset, hash and display string are
the originally computed values; deep duplication of an unregistered bit
returns the same instance. -/
theorem bit_duplication_semantics
    (b : BitObj) (r : Register) (fb fr : Nat) :
    bitCopy b = b ∧
    ((b.register = none ∧ b.index = none) → bitDeepcopy fb fr b = b) ∧
    (b.register = some r →
      (bitDeepcopy fb fr b).objId = fb ∧
      (fb ≠ b.objId → (bitDeepcopy fb fr b).objId ≠ b.objId) ∧
      (bitDeepcopy fb fr b).register = some (deepcopyRegister fr r) ∧
      (deepcopyRegister fr r).objId = fr ∧
      (deepcopyRegister fr r).size = r.size ∧
      (deepcopyRegister fr r).display = r.display ∧
      (bitDeepcopy fb fr b).index = b.index ∧
      (bitDeepcopy fb fr b).hash = b.hash ∧
      (bitDeepcopy fb fr b).repr = b.repr ∧
      (bitDeepcopy fb fr b).kind = b.kind) := by
  refine ⟨rfl, ?_, ?_⟩
  · rintro ⟨hr, hi⟩
    simp [bitDeepcopy, hr, hi]
  · intro hr
    simp [bitDeepcopy, deepcopyRegister, hr]

/-- Witness for C5: a concrete registered bit on register object 7 deep
copied with fresh ids 50 (bit) and 51 (register), and a concrete
unregistered bit deep copied to itself. -/
theorem bit_duplication_semantics_witness :
    (bitCopy { kind := "Qubit", objId := 1, register := some ⟨7, 3, "q"⟩,
               index := some 2, hash := pairHash (regHash ⟨7, 3, "q"⟩) 2,
               repr := some (bitReprStr "Qubit" ⟨7, 3, "q"⟩ 2) } =
      { kind := "Qubit", objId := 1, register := some ⟨7, 3, "q"⟩,
        index := some 2, hash := pairHash (regHash ⟨7, 3, "q"⟩) 2,
        repr := some (bitReprStr "Qubit" ⟨7, 3, "q"⟩ 2) } ∧
     ((({ kind := "Qubit", objId := 1, register := some ⟨7, 3, "q"⟩,
          index := some 2, hash := pairHash (regHash ⟨7, 3, "q"⟩) 2,
          repr := some (bitReprStr "Qubit" ⟨7, 3, "q"⟩ 2) } : BitObj).register = none ∧
       (({ kind := "Qubit", objId := 1, register := some ⟨7, 3, "q"⟩,
           index := some 2, hash := pairHash (regHash ⟨7, 3, "q"⟩) 2,
           repr := some (bitReprStr "Qubit" ⟨7, 3, "q"⟩ 2) } : BitObj)).index = none) →
       bitDeepcopy 50 51 { kind := "Qubit", objId := 1, register := some ⟨7, 3, "q"⟩,
                           index := some 2, hash := pairHash (regHash ⟨7, 3, "q"⟩) 2,
                           repr := some (bitReprStr "Qubit" ⟨7, 3, "q"⟩ 2) } =
         { kind := "Qubit", objId := 1, register := some ⟨7, 3, "q"⟩,
           index := some 2, hash := pairHash (regHash ⟨7, 3, "q"⟩) 2,
           repr := some (bitReprStr "Qubit" ⟨7, 3, "q"⟩ 2) }) ∧
     ((({ kind := "Qubit", objId := 1, register := some ⟨7, 3, "q"⟩,
          index := some 2, hash := pairHash (regHash ⟨7, 3, "q"⟩) 2,
          repr := some (bitReprStr "Qubit" ⟨7, 3, "q"⟩ 2) } : BitObj)).register = some ⟨7, 3, "q"⟩ →
       (bitDeepcopy 50 51 { kind := "Qubit", objId := 1, register := some ⟨7, 3, "q"⟩,
                            index := some 2, hash := pairHash (regHash ⟨7, 3, "q"⟩) 2,
                            repr := some (bitReprStr "Qubit" ⟨7, 3, "q"⟩ 2) }).objId = 50 ∧
       (50 ≠ ({ kind := "Qubit", objId := 1, register := some ⟨7, 3, "q"⟩,
                index := some 2, hash := pairHash (regHash ⟨7, 3, "q"⟩) 2,
                repr := some (bitReprStr "Qubit" ⟨7, 3, "q"⟩ 2) } : BitObj).objId →
        (bitDeepcopy 50 51 { kind := "Qubit", objId := 1, register := some ⟨7, 3, "q"⟩,
                             index := some 2, hash := pairHash (regHash ⟨7, 3, "q"⟩) 2,
                             repr := some (bitReprStr "Qubit" ⟨7, 3, "q"⟩ 2) }).objId ≠
          ({ kind := "Qubit", objId := 1, register := some ⟨7, 3, "q"⟩,
             index := some 2, hash := pairHash (regHash ⟨7, 3, "q"⟩) 2,
             repr := some (bitReprStr "Qubit" ⟨7, 3, "q"⟩ 2) } : BitObj).objId) ∧
       (bitDeepcopy 50 51 { kind := "Qubit", objId := 1, register := some ⟨7, 3, "q"⟩,
                            index := some 2, hash := pairHash (regHash ⟨7, 3, "q"⟩) 2,
                            repr := some (bitReprStr "Qubit" ⟨7, 3, "q"⟩ 2) }).register =
         some (deepcopyRegister 51 ⟨7, 3, "q"⟩) ∧
       (deepcopyRegister 51 (⟨7, 3, "q"⟩ : Register)).objId = 51 ∧
       (deepcopyRegister 51 (⟨7, 3, "q"⟩ : Register)).size = (⟨7, 3, "q"⟩ : Register).size ∧
       (deepcopyRegister 51 (⟨7, 3, "q"⟩ : Register)).display = (⟨7, 3, "q"⟩ : Register).display ∧
       (bitDeepcopy 50 51 { kind := "Qubit", objId := 1, register := some ⟨7, 3, "q"⟩,
                            index := some 2, hash := pairHash (regHash ⟨7, 3, "q"⟩) 2,
                            repr := some (bitReprStr "Qubit" ⟨7, 3, "q"⟩ 2) }).index =
         ({ kind := "Qubit", objId := 1, register := some ⟨7, 3, "q"⟩,
            index := some 2, hash := pairHash (regHash ⟨7, 3, "q"⟩) 2,
            repr := some (bitReprStr "Qubit" ⟨7, 3, "q"⟩ 2) } : BitObj).index ∧
       (bitDeepcopy 50 51 { kind := "Qubit", objId := 1, register := some ⟨7, 3, "q"⟩,
                            index := some 2, hash := pairHash (regHash ⟨7, 3, "q"⟩) 2,
                            repr := some (bitReprStr "Qubit" ⟨7, 3, "q"⟩ 2) }).hash =
         ({ kind := "Qubit", objId := 1, register := some ⟨7, 3, "q"⟩,
            index := some 2, hash := pairHash (regHash ⟨7, 3, "q"⟩) 2,
            repr := some (bitReprStr "Qubit" ⟨7, 3, "q"⟩ 2) } : BitObj).hash ∧
       (bitDeepcopy 50 51 { kind := "Qubit", objId := 1, register := some ⟨7, 3, "q"⟩,
                            index := some 2, hash := pairHash (regHash ⟨7, 3, "q"⟩) 2,
                            repr := some (bitReprStr "Qubit" ⟨7, 3, "q"⟩ 2) }).repr =
         ({ kind := "Qubit", objId := 1, register := some ⟨7, 3, "q"⟩,
            index := some 2, hash := pairHash (regHash ⟨7, 3, "q"⟩) 2,
            repr := some (bitReprStr "Qubit" ⟨7, 3, "q"⟩ 2) } : BitObj).repr ∧
       (bitDeepcopy 50 51 { kind := "Qubit", objId := 1, register := some ⟨7, 3, "q"⟩,
                            index := some 2, hash := pairHash (regHash ⟨7, 3, "q"⟩) 2,
                            repr := some (bitReprStr "Qubit" ⟨7, 3, "q"⟩ 2) }).kind =
         ({ kind := "Qubit", objId := 1, register := some ⟨7, 3, "q"⟩,
            index := some 2, hash := pairHash (regHash ⟨7, 3, "q"⟩) 2,
            repr := some (bitReprStr "Qubit" ⟨7, 3, "q"⟩ 2) } : BitObj).kind)) :=
  bit_duplication_semantics
    { kind := "Qubit", objId := 1, register := some ⟨7, 3, "q"⟩,
      index := some 2, hash := pairHash (regHash ⟨7, 3, "q"⟩) 2,
      repr := some (bitReprStr "Qubit" ⟨7, 3, "q"⟩ 2) } ⟨7, 3, "q"⟩ 50 51

end QiskitBit

namespace QiskitBit

/-- C9: whenever at least one of register and offset is provided, an offset
that is not castable to `int` makes construction fail with the castability
`CircuitError`, while an int-castable value (a float, a numeric string) is
converted to `int` first, after which construction proceeds exactly as with
that integer. -/
theorem index_castability
    (k : String) (oid : Nat) :
    (∀ (reg : Option Register) (idx : Option PyVal),
      ¬(reg = none ∧ idx = none) → pyIntCastOpt idx = none →
      bitInit k oid reg idx =
        .error (.circuitError "index needs to be castable to an int")) ∧
    (∀ (reg : Option Register) (v : PyVal) (i : Int), pyIntCast v = some i →
      bitInit k oid reg (some v) = bitInit k oid reg (some (.vInt i))) := by
  constructor
  · intro reg idx hnn hc
    match reg, idx with
    | none, none => exact absurd ⟨rfl, rfl⟩ hnn
    | some r, none => simp [bitInit, pyIntCastOpt]
    | some r, some v => simp [bitInit, hc]
    | none, some v => simp [bitInit, hc]
  · intro reg v i hv
    cases reg <;> (simp only [bitInit, pyIntCastOpt]; rw [hv]; rfl)

/-- Witness for C9: the non-numeric string `"abc"` is rejected with the
castability error on a register of size 3, while the float `2.0` is
accepted and behaves exactly like the integer 2. -/
theorem index_castability_witness :
    (bitInit "Qubit" 1 (some ⟨7, 3, "q"⟩) (some (.vStr "abc")) =
      .error (.circuitError "index needs to be castable to an int")) ∧
    (bitInit "Qubit" 1 (some ⟨7, 3, "q"⟩) (some (.vFloat 2)) =
      bitInit "Qubit" 1 (some ⟨7, 3, "q"⟩) (some (.vInt 2))) :=
  ⟨(index_castability "Qubit" 1).1 (some ⟨7, 3, "q"⟩) (some (.vStr "abc"))
     (by simp) (by decide),
   (index_castability "Qubit" 1).2 (some ⟨7, 3, "q"⟩) (.vFloat 2) 2 rfl⟩

/-- C10: comparing a registered bit against any object without a `_repr`
attribute (every unregistered bit, every non-`Bit` value without one)
returns `False`; the `AttributeError` branch makes equality total. -/
theorem registered_eq_missing_repr_false
    (b : BitObj) (r : Register) (other : PyAny)
    (hreg : b.register = some r)
    (hother : getReprAttr other = none) :
    bitEq b other = false := by
  cases hb : b.repr <;> simp [bitEq, hreg, hother, hb]

/-- Witness for C10: a concrete registered bit compared against an
unregistered bit (whose `_repr` slot is unset) yields `False`. -/
theorem registered_eq_missing_repr_false_witness :
    bitEq { kind := "Qubit", objId := 1, register := some ⟨7, 3, "q"⟩,
            index := some 2, hash := pairHash (regHash ⟨7, 3, "q"⟩) 2,
            repr := some (bitReprStr "Qubit" ⟨7, 3, "q"⟩ 2) }
      (.bit { kind := "Qubit", objId := 2, register := none, index := none,
              hash := objectHash 2, repr := none }) = false :=
  registered_eq_missing_repr_false _ ⟨7, 3, "q"⟩ _ rfl rfl

end QiskitBit

namespace QiskitClifford

/-- C6: the Clifford-collection predicate accepts a node iff its operation
name lies in the union of the single-qubit generator names, the two-qubit
generator names and the four composite names, and the operation carries no
classical condition; a node failing either conjunct is rejected. -/
theorem is_clifford_gate_iff (node : DAGNode) :
    is_clifford_gate node = true ↔
      ((node.op.name ∈ basis1qNames ∨ node.op.name ∈ basis2qNames ∨
        node.op.name ∈ ["clifford", "linear_function", "pauli", "permutation"]) ∧
       node.op.condition = none) := by
  simp [is_clifford_gate, clifford_gate_names, List.mem_append, or_assoc]

/-- C7: the `template_nct_5a_4` circuit has two qubits and exactly the five
operations CX(0,1), X(0), CX(0,1), X(0), X(1) in order; each of the five
nodes satisfies the Clifford predicate, and the default configuration
(`min_block_size = 2`, `split_blocks = true`) collects them as a single
block of size 5. -/
theorem template_collected_as_single_clifford_block :
    template_nct_5a_4.num_qubits = 2 ∧
    template_nct_5a_4.data =
      [⟨⟨"cx", none⟩, [0, 1]⟩, ⟨⟨"x", none⟩, [0]⟩, ⟨⟨"cx", none⟩, [0, 1]⟩,
       ⟨⟨"x", none⟩, [0]⟩, ⟨⟨"x", none⟩, [1]⟩] ∧
    template_nct_5a_4.data.all is_clifford_gate = true ∧
    CollectCliffords.initDefault.collect template_nct_5a_4.data =
      [template_nct_5a_4.data] ∧
    (CollectCliffords.initDefault.collect template_nct_5a_4.data).map
      List.length = [5] :=
  ⟨rfl, by decide, by decide, by decide, by decide⟩

/-- C8: constructing the pass with no arguments uses exactly
`do_commutative_analysis = false`, `split_blocks = true`,
`min_block_size = 2`, `split_layers = false`, `collect_from_back = false`,
and every construction forwards its values unchanged to the collection
function. -/
theorem collect_cliffords_default_config :
    CollectCliffords.initDefault = CollectCliffords.init false true 2 false false ∧
    CollectCliffords.initDefault.do_commutative_analysis = false ∧
    CollectCliffords.initDefault.collect_args =
      { split_blocks := true, min_block_size := 2, split_layers := false,
        collect_from_back := false } ∧
    (∀ (dca sb : Bool) (mbs : Nat) (sl cfb : Bool) (nodes : List DAGNode),
      (CollectCliffords.init dca sb mbs sl cfb).do_commutative_analysis = dca ∧
      (CollectCliffords.init dca sb mbs sl cfb).collect_args =
        { split_blocks := sb, min_block_size := mbs, split_layers := sl,
          collect_from_back := cfb } ∧
      (CollectCliffords.init dca sb mbs sl cfb).collect nodes =
        collect_using_filter_function is_clifford_gate sb mbs sl cfb nodes) :=
  ⟨rfl, rfl, rfl, fun _ _ _ _ _ _ => ⟨rfl, rfl, rfl⟩⟩

end QiskitClifford

namespace QiskitClifford

/-- Witness for C6: a concrete CX node with no condition is accepted by the
predicate via the characterization. -/
theorem is_clifford_gate_iff_witness :
    is_clifford_gate ⟨⟨"cx", none⟩, [0, 1]⟩ = true :=
  (is_clifford_gate_iff ⟨⟨"cx", none⟩, [0, 1]⟩).mpr ⟨by decide, rfl⟩

end QiskitClifford
